import Mathlib

/-!
# Verification of the tiered cache/persistence core of `ai-hedge-fund`

Shallow embedding of `src/data/database.py`, `src/data/cache.py` and
`src/data/cache_manager.py`.

Modelling conventions:
* Python dicts for entity records become Lean structures; a field read with
  `item.get(k)` (which yields `None` when the key is absent) becomes an
  `Option` field, where `none` stands for an absent key or a `None` value.
* SQLAlchemy tables become `List` of row structures; `Float` columns are
  modelled as opaque `Option Int` payloads (no claim depends on float
  arithmetic, only on storage, equality and presence); the `created_at` /
  `updated_at` wall-clock columns are outside the model.
* Sessions are created with `autoflush=False` and one `commit` per call, so
  inside one write call a query's WHERE clause sees only the table as it was
  at call entry (`orig`), while attribute updates on already-loaded rows are
  visible through the identity map (`work`), and `db.add` collects pending
  inserts (`adds`); `commit` produces `work ++ adds`, `rollback` restores
  `orig`.
* The Redis tier is an association list from key strings to the pickled
  payload; the in-process fallback cache is an association list from ticker
  to record list.
-/

namespace AIHedgeFund

/-! ## `database.py` -/

/-- Python's lexicographic string order, compared code point by code point,
as a structurally recursive Boolean test (core `String.le` is decided by a
well-founded iterator loop that the kernel cannot evaluate). -/
def charListLe : List Char → List Char → Bool
  | [], _ => true
  | _ :: _, [] => false
  | c1 :: t1, c2 :: t2 =>
    if c1.toNat < c2.toNat then true
    else if c2.toNat < c1.toNat then false
    else charListLe t1 t2

def strLe (s t : String) : Bool := charListLe s.toList t.toList

/-- `generate_cache_key` (database.py lines 178-194): sorts the kwargs
items, drops pairs whose value is `None`, renders `k:v` and joins with `:`
after the data-type name.  Values are modelled already rendered by `str`. -/
def sortKwargs (kwargs : List (String × Option String)) : List (String × Option String) :=
  List.insertionSort (fun a b => strLe a.1 b.1) kwargs

def generate_cache_key (data_type : String) (kwargs : List (String × Option String)) : String :=
  String.intercalate ":"
    (data_type :: (sortKwargs kwargs).filterMap (fun kv => kv.2.map (fun v => kv.1 ++ ":" ++ v)))

/-- `get_cache_mode` (database.py lines 39-62) as a pure function of the
module-level configuration `CACHE_MODE` and the two health flags
`is_db_enabled()` / `is_redis_enabled()`. -/
def get_cache_mode (cacheMode : String) (dbEnabled redisEnabled : Bool) : String :=
  if cacheMode = "full" ∧ dbEnabled ∧ redisEnabled then "full"
  else if (cacheMode = "full" ∨ cacheMode = "sqlite") ∧ dbEnabled then "sqlite"
  else if (cacheMode = "full" ∨ cacheMode = "redis") ∧ redisEnabled then "redis"
  else if cacheMode = "none" then "none"
  else "memory"

/-- The five cache modes named by the spec, in the spec's strength order. -/
inductive SpecMode | fullM | durableOnly | fastOnly | memoryOnly | disabled
deriving DecidableEq

/-- The configuration string of each spec mode. -/
def specModeStr : SpecMode → String
  | .fullM => "full"
  | .durableOnly => "sqlite"
  | .fastOnly => "redis"
  | .memoryOnly => "memory"
  | .disabled => "none"

/-- Modelled from the spec: the tier health a mode requires (`Full` needs
durable store and fast cache, `DurableOnly` the durable store, `FastOnly`
the fast cache, the two weakest need nothing). -/
def specTierOk : SpecMode → Bool → Bool → Bool
  | .fullM, db, redis => db && redis
  | .durableOnly, db, _ => db
  | .fastOnly, _, redis => redis
  | .memoryOnly, _, _ => true
  | .disabled, _, _ => true

/-- Modelled from the spec: the fixed total order
Full > DurableOnly > FastOnly > MemoryOnly > Disabled, starting at a
configured preference. -/
def specChain : SpecMode → List SpecMode
  | .fullM => [.fullM, .durableOnly, .fastOnly, .memoryOnly, .disabled]
  | .durableOnly => [.durableOnly, .fastOnly, .memoryOnly, .disabled]
  | .fastOnly => [.fastOnly, .memoryOnly, .disabled]
  | .memoryOnly => [.memoryOnly, .disabled]
  | .disabled => [.disabled]

/-- Modelled from the spec: `effectiveMode` degrades the configured
preference to the first mode along the fixed order whose required tier is
up, never escalating. -/
def specEffectiveMode (pref : SpecMode) (db redis : Bool) : SpecMode :=
  ((specChain pref).find? (fun m => specTierOk m db redis)).getD .disabled

/-- Strength rank of a mode string along the spec's total order. -/
def modeStrength (s : String) : Nat :=
  if s = "full" then 4
  else if s = "sqlite" then 3
  else if s = "redis" then 2
  else if s = "memory" then 1
  else 0

/-! ## `cache.py`: fallback store and merge -/

/-- Python truthiness of an optional string (`None` and `""` are falsy). -/
def truthyStr (o : Option String) : Bool :=
  match o with
  | some s => !(s = "" : Bool)
  | none => false

/-- Python truthiness of an optional JSON list (`None` and `[]` are falsy). -/
def truthyList {α : Type} (o : Option (List α)) : Bool :=
  match o with
  | some l => !l.isEmpty
  | none => false

/-- `PersistentCache._merge_data` (cache.py lines 174-194): when `existing`
is falsy return `new_data`, otherwise append only the incoming records whose
key field is not among the existing keys.  The Python string-named key
field together with `item[key_field]` is modelled as a key extractor. -/
def _merge_data {α κ : Type} [DecidableEq κ] (existing new_data : List α) (key_field : α → κ) :
    List α :=
  if existing.isEmpty then new_data
  else
    let existing_keys := existing.map key_field
    existing ++ new_data.filter (fun item => !(existing_keys.contains (key_field item)))

/-- Lookup in an association list (a Python dict keyed by strings). -/
def assocFind {α : Type} (m : List (String × α)) (k : String) : Option α :=
  (m.find? (fun kv => decide (kv.1 = k))).map (fun kv => kv.2)

/-- `d[k] = v` on an association list. -/
def assocSet {α : Type} (m : List (String × α)) (k : String) (v : α) : List (String × α) :=
  if (m.find? (fun kv => decide (kv.1 = k))).isSome then
    m.map (fun kv => if kv.1 = k then (k, v) else kv)
  else m ++ [(k, v)]

/-- `item.get("time", "").split("T")[0]` and friends: the prefix of a string
before the first `'T'`. -/
def splitDateT (s : String) : String :=
  String.mk (s.toList.takeWhile (fun c => decide (c ≠ 'T')))

/-- Glob pattern `pat*`: the scanned key starts with `pat`. -/
def matchesPattern (pat s : String) : Bool :=
  pat.toList.isPrefixOf s.toList

/-! ## Price bars -/

/-- A Python price dict: `time` is read with `item['time']` (required), the
value fields with `item.get(...)` (optional).  `none` models an absent key
or a `None` value.  Floats are modelled as opaque `Int` payloads. -/
structure PriceItem where
  ticker : Option String
  time : String
  open_ : Option Int
  close : Option Int
  high : Option Int
  low : Option Int
  volume : Option Int
deriving DecidableEq

/-- A row of the `prices` table (db_models.py `Price`), sans the wall-clock
`created_at`/`updated_at` columns. -/
structure PriceRow where
  ticker : String
  time : String
  open_ : Option Int
  close : Option Int
  high : Option Int
  low : Option Int
  volume : Option Int
deriving DecidableEq

/-- The update branch of `set_prices` (cache.py lines 313-320): every value
column is overwritten with `item.get(...)`. -/
def updatePriceRow (r : PriceRow) (item : PriceItem) : PriceRow :=
  { r with open_ := item.open_, close := item.close, high := item.high,
           low := item.low, volume := item.volume }

/-- The insert branch of `set_prices` (cache.py lines 322-332). -/
def mkPriceRow (ticker : String) (item : PriceItem) : PriceRow :=
  { ticker := ticker, time := item.time, open_ := item.open_, close := item.close,
    high := item.high, low := item.low, volume := item.volume }

/-- The per-record upsert loop of `set_prices` (cache.py lines 300-332).
The session is `autoflush=False` with a single commit, so the lookup by
natural key (`ticker`,`time`) runs against the table as of call entry
(`orig`), while updates are accumulated in `work` (the identity map) and
inserts in `adds`. -/
def setPricesLoop (orig : List PriceRow) (ticker : String) (force_update : Bool) :
    List PriceItem → List PriceRow → List PriceRow → List PriceRow × List PriceRow
  | [], work, adds => (work, adds)
  | item :: rest, work, adds =>
    match orig.findIdx? (fun r => decide (r.ticker = ticker ∧ r.time = item.time)) with
    | some i =>
      if force_update then
        setPricesLoop orig ticker force_update rest
          (work.set i (updatePriceRow (work.getD i (mkPriceRow ticker item)) item)) adds
      else setPricesLoop orig ticker force_update rest work adds
    | none => setPricesLoop orig ticker force_update rest work (adds ++ [mkPriceRow ticker item])

/-- The durable leg of `set_prices`: run the loop and commit
(`work ++ adds`). -/
def set_prices_db (ticker : String) (data : List PriceItem) (force_update : Bool)
    (orig : List PriceRow) : List PriceRow :=
  (setPricesLoop orig ticker force_update data orig []).1
    ++ (setPricesLoop orig ticker force_update data orig []).2

/-- `_memory_set("prices", ticker, data, "time")` (cache.py lines 144-172). -/
def memory_set_prices (mem : List (String × List PriceItem)) (ticker : String)
    (data : List PriceItem) : List (String × List PriceItem) :=
  assocSet mem ticker
    (_merge_data ((assocFind mem ticker).getD []) data (fun it => it.time))

/-- `set_prices` (cache.py lines 262-348).  State: fast cache (association
list keyed by cache key, `none` when the tier is down), durable table
(`none` when the durable store is disabled, in which case the decorator
passes `db=None`), fallback store.  Returns the three updated tiers and the
call's boolean result.  The Redis and durable legs are modelled on their
exception-free paths (their errors are environmental); the fallback store
is used exactly when the durable session is absent. -/
def set_prices (redis : Option (List (String × List PriceItem))) (db : Option (List PriceRow))
    (mem : List (String × List PriceItem)) (ticker : String) (data : List PriceItem)
    (force_update : Bool) :
    Option (List (String × List PriceItem)) × Option (List PriceRow) ×
      List (String × List PriceItem) × Bool :=
  if data.isEmpty then (redis, db, mem, false)
  else
    let redis' := redis.map (fun r =>
      (r.filter (fun kv => !(matchesPattern ("prices:ticker:" ++ ticker) kv.1)))
        ++ [(generate_cache_key "prices" [("ticker", some ticker)], data)])
    let db' := db.map (set_prices_db ticker data force_update)
    let mem' := if db.isSome then mem else memory_set_prices mem ticker data
    (redis', db', mem', true)

/-- A row of the durable table rendered back to a Python dict
(cache.py lines 230-241). -/
def priceRowToItem (r : PriceRow) : PriceItem :=
  { ticker := some r.ticker, time := r.time, open_ := r.open_, close := r.close,
    high := r.high, low := r.low, volume := r.volume }

/-- `_memory_get("prices", ticker, start_date=..., end_date=...)`
(cache.py lines 110-142) at the prices call site: both filter keys are
always present in the `filters` dict, so a `None` bound is compared against
a date string and raises `TypeError` whenever the stored list is
non-empty. -/
def _memory_get_prices (mem : List (String × List PriceItem)) (ticker : String)
    (start_date end_date : Option String) : Except String (Option (List PriceItem)) := do
  match assocFind mem ticker with
  | none => pure none
  | some data0 => do
    let data1 ← (if data0.isEmpty then pure data0 else
      match start_date with
      | none => throw "TypeError: >= not supported between str and NoneType"
      | some sd => pure (data0.filter (fun it => strLe sd (splitDateT it.time))))
    let data2 ← (if data1.isEmpty then pure data1 else
      match end_date with
      | none => throw "TypeError: <= not supported between str and NoneType"
      | some ed => pure (data1.filter (fun it => strLe (splitDateT it.time) ed)))
    pure (if data2.isEmpty then none else some data2)

/-- `get_prices` (cache.py lines 196-260): fast cache first (a hit must be
truthy), then the durable query (filtered by ticker and date range, ordered
by time), then — in memory mode or with the durable store disabled — the
fallback store; otherwise an empty list.  The write-through of a non-empty
result into the fast cache does not change the returned value and is not
tracked. -/
def get_prices (redis : Option (List (String × List PriceItem))) (db : Option (List PriceRow))
    (mem : List (String × List PriceItem)) (cache_mode : String) (ticker : String)
    (start_date end_date : Option String) : Except String (List PriceItem) := do
  let redisHit : Option (List PriceItem) :=
    match redis with
    | none => none
    | some r =>
      match assocFind r (generate_cache_key "prices"
          [("ticker", some ticker), ("start_date", start_date), ("end_date", end_date)]) with
      | some l => if l.isEmpty then none else some l
      | none => none
  match redisHit with
  | some l => pure l
  | none => do
    let results : List PriceItem :=
      match db with
      | none => []
      | some table =>
        (List.insertionSort (fun a b => strLe a.time b.time)
          (table.filter (fun r => decide (r.ticker = ticker)
            && (match start_date with | some s => strLe s r.time | none => true)
            && (match end_date with | some e => strLe r.time e | none => true)))).map priceRowToItem
    if db.isSome && !results.isEmpty then pure results
    else if cache_mode = "memory" ∨ db.isNone then
      match ← _memory_get_prices mem ticker start_date end_date with
      | some l => pure l
      | none => pure []
    else pure []

/-! ## Financial metrics -/

/-- A financial-metric dict (what `set_financial_metrics` receives and what
a pickled fast-cache entry holds).  `report_period` is read with
`item['report_period']` (required).  Of the ~20 parallel numeric ratio
columns, three representatives are modelled. -/
structure FMItem where
  ticker : Option String
  report_period : String
  period : String
  currency : Option String
  market_cap : Option Int
  pe_ratio : Option Int
  roe : Option Int
deriving DecidableEq

/-- A row of the `financial_metrics` table as declared by db_models.py,
whose model class is named `FinancialMetric` — without the trailing `s`
that cache.py dereferences. -/
structure FMRow where
  ticker : String
  report_period : String
  period : String
  currency : Option String
  market_cap : Option Int
  pe_ratio : Option Int
  roe : Option Int
deriving DecidableEq

/-- `set_financial_metrics` (cache.py lines 415-474).  db_models.py defines
`FinancialMetric`, not `FinancialMetrics`, so with a live session the first
natural-key lookup `db.query(db_models.FinancialMetrics)` (line 438) raises
`AttributeError` while evaluating its argument — before any `db.add` or
`commit`.  The `except` handler rolls back the (empty) transaction and
returns `False`: the durable table is never modified and the post-commit
fast-cache invalidation is never reached.  With the session absent
(`db=None`) `db.query` raises first and the handler's own `db.rollback()`
re-raises, modelled as `.error`. -/
def set_financial_metrics (redis : Option (List (String × List FMItem)))
    (db : Option (List FMRow)) (ticker : String) (data : List FMItem)
    (force_update : Bool) :
    Option (List (String × List FMItem)) × Option (List FMRow) × Except String Bool :=
  if data.isEmpty then (redis, db, .ok false)
  else
    match db with
    | none => (redis, none, .error "AttributeError: 'NoneType' object has no attribute 'query'")
    | some table => (redis, some table, .ok false)

/-! ## Line items -/

/-- A line-item dict as the facade's callers shape it (base fields plus the
open-ended label→value mapping `extra`); also the pickled payload of a
fast-cache entry. -/
structure LIItem where
  ticker : Option String
  report_period : String
  period : String
  currency : Option String
  extra : List (String × Int)
deriving DecidableEq

/-- A row of the `line_items` table as declared by db_models.py: its
columns are `period_type`, `statement_type`, `label`, `value`, `unit` —
there is no `period`, `currency` or JSON `data` column of the kind
cache.py dereferences. -/
structure LIRow where
  ticker : String
  report_period : String
  period_type : String
  statement_type : String
  label : String
  value : Option Int
  unit : Option String
deriving DecidableEq

/-- `set_line_items` (cache.py lines 528-602).  The declared
`db_models.LineItem` has no `period` column, so with a live session the
first natural-key lookup (lines 551-555) raises `AttributeError` at
`db_models.LineItem.period` — before any `db.add` or `commit`.  The
handler rolls back the (empty) transaction and returns `False`: the
durable table is never modified.  With the session absent, `db.query`
raises first and the handler's `db.rollback()` re-raises (`.error`). -/
def set_line_items (redis : Option (List (String × List LIItem)))
    (db : Option (List LIRow)) (ticker : String) (data : List LIItem)
    (force_update : Bool) :
    Option (List (String × List LIItem)) × Option (List LIRow) × Except String Bool :=
  if data.isEmpty then (redis, db, .ok false)
  else
    match db with
    | none => (redis, none, .error "AttributeError: 'NoneType' object has no attribute 'query'")
    | some table => (redis, some table, .ok false)

/-- `get_line_items` (cache.py lines 476-526): a truthy fast-cache hit is
returned without touching the session; otherwise the durable query is
built unconditionally (there is no `if db:` guard) and always raises,
uncaught — `AttributeError` on `db.query` when the session is absent, and
`AttributeError` at `db_models.LineItem.period` (line 498) when it is
present, since the declared model has no such column. -/
def get_line_items (redis : Option (List (String × List LIItem))) (db : Option (List LIRow))
    (ticker : String) (end_date : Option String) (period : String) :
    Except String (List LIItem) :=
  let ck := generate_cache_key "line_items"
    [("ticker", some ticker), ("end_date", end_date), ("period", some period)]
  let cached : Option (List LIItem) :=
    match redis with
    | none => none
    | some r => assocFind r ck
  let fromDb : Except String (List LIItem) :=
    match db with
    | none => .error "AttributeError: 'NoneType' object has no attribute 'query'"
    | some _ => .error "AttributeError: type object 'LineItem' has no attribute 'period'"
  match cached with
  | some l => if l.isEmpty then fromDb else .ok l
  | none => fromDb

/-! ## Insider trades -/

/-- An insider-trade dict: `filing_date` is required, `name` and
`transaction_date` are read with `item.get(...)`.  One representative
numeric detail column is modelled. -/
structure ITItem where
  filing_date : String
  name : Option String
  transaction_date : Option String
  insider_name : Option String
  shares : Option Int
deriving DecidableEq

/-- A row of `insider_trades` (db_models.py `InsiderTrade`), representative
columns. -/
structure ITRow where
  ticker : String
  filing_date : String
  transaction_date : Option String
  insider_name : Option String
  shares : Option Int
deriving DecidableEq

/-- The update branch of `set_insider_trades` (cache.py lines 705-710):
`setattr` for each item key that is a model attribute (`name` is not one,
`ticker` is forced to the call's argument). -/
def updateITRow (ticker : String) (r : ITRow) (item : ITItem) : ITRow :=
  { ticker := ticker,
    filing_date := item.filing_date,
    transaction_date := item.transaction_date.elim r.transaction_date some,
    insider_name := item.insider_name.elim r.insider_name some,
    shares := item.shares.elim r.shares some }

/-- The insert branch of `set_insider_trades` (cache.py lines 711-715). -/
def mkITRow (ticker : String) (item : ITItem) : ITRow :=
  { ticker := ticker, filing_date := item.filing_date,
    transaction_date := item.transaction_date,
    insider_name := item.insider_name, shares := item.shares }

/-- The per-record loop of `set_insider_trades` (cache.py lines 678-715).
When the item's `name` is truthy, line 690 evaluates
`db_models.InsiderTrade.name` — the model declares no `name` column, so
the lookup raises `AttributeError` and the batch is rolled back (`none`). -/
def setITLoop (orig : List ITRow) (ticker : String) (force_update : Bool) :
    List ITItem → List ITRow → List ITRow → Option (List ITRow × List ITRow)
  | [], work, adds => some (work, adds)
  | item :: rest, work, adds =>
    if truthyStr item.name then none
    else
      match orig.findIdx? (fun r => decide (r.ticker = ticker ∧
          r.filing_date = item.filing_date)
          && (match item.transaction_date with
              | some td => if td = "" then true else decide (r.transaction_date = some td)
              | none => true)) with
      | some i =>
        if force_update then
          setITLoop orig ticker force_update rest
            (work.set i (updateITRow ticker (work.getD i (mkITRow ticker item)) item)) adds
        else setITLoop orig ticker force_update rest work adds
      | none => setITLoop orig ticker force_update rest work (adds ++ [mkITRow ticker item])

/-- `set_insider_trades` (cache.py lines 660-730): same post-commit
unguarded `self.redis.scan_iter` as `set_financial_metrics`; an in-loop
exception rolls the whole batch back before commit. -/
def set_insider_trades (redis : Option (List (String × List ITItem)))
    (db : Option (List ITRow)) (ticker : String) (data : List ITItem)
    (force_update : Bool) :
    Option (List (String × List ITItem)) × Option (List ITRow) × Except String Bool :=
  if data.isEmpty then (redis, db, .ok false)
  else
    match db with
    | none => (redis, none, .error "AttributeError: 'NoneType' object has no attribute 'query'")
    | some table =>
      match setITLoop table ticker force_update data table [] with
      | none => (redis, some table, .ok false)
      | some wa =>
        let committed := wa.1 ++ wa.2
        match redis with
        | some r =>
          (some (r.filter (fun kv =>
             !(matchesPattern ("insider_trades:ticker:" ++ ticker) kv.1))),
           some committed, .ok true)
        | none => (none, some committed, .ok false)

/-! ## Company news -/

/-- A news dict: `date` and `title` are required (`item['date']`,
`item['title']`), the rest is read via iteration over the present keys.
`related_tickers` and `ticker_sentiments` occur in enhancement-pass dicts
but are not `News` model attributes. -/
structure NewsItem where
  date : String
  title : String
  url : Option String
  summary : Option String
  author : Option String
  source : Option String
  sentiment : Option String
  categories : Option (List String)
  entities : Option (List String)
  related_tickers : Option (List String)
  ticker_sentiments : Option (List (String × String))
deriving DecidableEq

/-- A row of `company_news` (db_models.py `News`): only the declared model
columns — there is no `related_tickers` or `ticker_sentiments`
attribute. -/
structure NewsRow where
  ticker : String
  date : String
  title : Option String
  summary : Option String
  author : Option String
  source : Option String
  url : Option String
  sentiment : Option String
  categories : Option (List String)
  entities : Option (List String)
deriving DecidableEq

/-- The non-overwrite branch of `set_company_news` (cache.py lines
815-826): for each present item key, a model attribute that is `None` is
filled when the incoming value is not `None`; additionally `summary`,
`categories` and `entities` are filled when the stored value is falsy
(empty) and the incoming value truthy.  Keys that are not model attributes
(`related_tickers`, `ticker_sentiments`) match no branch and are dropped.
The per-key branches touch only their own field, so the dict iteration
order is irrelevant. -/
def fillNewsRow (r : NewsRow) (item : NewsItem) : NewsRow :=
  { r with
    title := match r.title with | none => some item.title | some t => some t,
    url := match r.url with | none => item.url | some u => some u,
    author := match r.author with | none => item.author | some a => some a,
    source := match r.source with | none => item.source | some s => some s,
    sentiment := match r.sentiment with | none => item.sentiment | some s => some s,
    summary :=
      match r.summary with
      | none => item.summary
      | some s => if s = "" ∧ truthyStr item.summary then item.summary else some s,
    categories :=
      match r.categories with
      | none => item.categories
      | some l => if l = [] ∧ truthyList item.categories then item.categories else some l,
    entities :=
      match r.entities with
      | none => item.entities
      | some l => if l = [] ∧ truthyList item.entities then item.entities else some l }

/-- The `force_update` branch of `set_company_news` (cache.py lines
827-832): `setattr` for each present item key that is a model attribute. -/
def forceNewsRow (r : NewsRow) (item : NewsItem) : NewsRow :=
  { r with
    date := item.date,
    title := some item.title,
    url := item.url.elim r.url some,
    summary := item.summary.elim r.summary some,
    author := item.author.elim r.author some,
    source := item.source.elim r.source some,
    sentiment := item.sentiment.elim r.sentiment some,
    categories := item.categories.elim r.categories some,
    entities := item.entities.elim r.entities some }

/-- The insert branch of `set_company_news` (cache.py lines 833-839): the
ticker is forced to the call's argument and keys that are not model
attributes are filtered out. -/
def mkNewsRow (ticker : String) (item : NewsItem) : NewsRow :=
  { ticker := ticker, date := item.date, title := some item.title,
    summary := item.summary, author := item.author, source := item.source,
    url := item.url, sentiment := item.sentiment, categories := item.categories,
    entities := item.entities }

/-- The per-record loop of `set_company_news` (cache.py lines 795-839):
the natural-key lookup uses `url` when truthy, else `title`. -/
def setNewsLoop (orig : List NewsRow) (ticker : String) (force_update : Bool) :
    List NewsItem → List NewsRow → List NewsRow → List NewsRow × List NewsRow
  | [], work, adds => (work, adds)
  | item :: rest, work, adds =>
    match orig.findIdx? (fun r => decide (r.ticker = ticker ∧ r.date = item.date)
        && (if truthyStr item.url then decide (r.url = item.url)
            else decide (r.title = some item.title))) with
    | some i =>
      let existing := work.getD i (mkNewsRow ticker item)
      let updated := if force_update then forceNewsRow existing item else fillNewsRow existing item
      setNewsLoop orig ticker force_update rest (work.set i updated) adds
    | none => setNewsLoop orig ticker force_update rest work (adds ++ [mkNewsRow ticker item])

/-- The durable leg of `set_company_news`: run the loop and commit. -/
def set_company_news_db (ticker : String) (data : List NewsItem) (force_update : Bool)
    (orig : List NewsRow) : List NewsRow :=
  (setNewsLoop orig ticker force_update data orig []).1
    ++ (setNewsLoop orig ticker force_update data orig []).2

/-- `set_company_news` (cache.py lines 777-854): same post-commit unguarded
`self.redis.scan_iter` structure as `set_financial_metrics`. -/
def set_company_news (redis : Option (List (String × List NewsItem)))
    (db : Option (List NewsRow)) (ticker : String) (data : List NewsItem)
    (force_update : Bool) :
    Option (List (String × List NewsItem)) × Option (List NewsRow) × Except String Bool :=
  if data.isEmpty then (redis, db, .ok false)
  else
    match db with
    | none => (redis, none, .error "AttributeError: 'NoneType' object has no attribute 'query'")
    | some table =>
      let committed := set_company_news_db ticker data force_update table
      match redis with
      | some r =>
        (some (r.filter (fun kv => !(matchesPattern ("company_news:ticker:" ++ ticker) kv.1))),
         some committed, .ok true)
      | none => (none, some committed, .ok false)

/-! ## Calendar arithmetic (`datetime` as used by cache_manager.py)

Proleptic Gregorian calendar via day numbers counted from 0000-03-01
(the standard era-based civil-date algorithms).  `datetime.weekday()`
returns Monday = 0; day number 730485 (2000-03-01) was a Wednesday, and
146097 ≡ 0 (mod 7), so the weekday of day `z` is `(z + 2) % 7`. -/

def daysFromCivil (y m d : Nat) : Nat :=
  let y' := if m ≤ 2 then y - 1 else y
  let era := y' / 400
  let yoe := y' % 400
  let mp := if 2 < m then m - 3 else m + 9
  let doy := (153 * mp + 2) / 5 + (d - 1)
  let doe := yoe * 365 + yoe / 4 - yoe / 100 + doy
  era * 146097 + doe

def civilFromDays (z : Nat) : Nat × Nat × Nat :=
  let era := z / 146097
  let doe := z % 146097
  let yoe := (doe - doe / 1460 + doe / 36524 - doe / 146096) / 365
  let y := yoe + era * 400
  let doy := doe - (365 * yoe + yoe / 4 - yoe / 100)
  let mp := (5 * doy + 2) / 153
  let d := doy - (153 * mp + 2) / 5 + 1
  let m := if mp < 10 then mp + 3 else mp - 9
  (if m ≤ 2 then y + 1 else y, m, d)

/-- `datetime.weekday()` of day number `z`: 0 = Monday … 6 = Sunday. -/
def pyWeekday (z : Nat) : Nat := (z + 2) % 7

def digitChar (n : Nat) : Char := Char.ofNat (48 + n)

def natDigits : Nat → Nat → List Char
  | 0, _ => []
  | fuel + 1, n => if n < 10 then [digitChar n] else natDigits fuel (n / 10) ++ [digitChar (n % 10)]

def natToStr (n : Nat) : String := String.mk (natDigits (n + 1) n)

def pad2 (n : Nat) : String := if n < 10 then "0" ++ natToStr n else natToStr n

def pad4 (n : Nat) : String :=
  if n < 10 then "000" ++ natToStr n
  else if n < 100 then "00" ++ natToStr n
  else if n < 1000 then "0" ++ natToStr n
  else natToStr n

/-- `strftime("%Y-%m-%d")`. -/
def formatDate : Nat × Nat × Nat → String
  | (y, m, d) => pad4 y ++ "-" ++ pad2 m ++ "-" ++ pad2 d

def splitOnChar (c : Char) : List Char → List (List Char)
  | [] => [[]]
  | x :: xs =>
    let r := splitOnChar c xs
    if x = c then [] :: r
    else match r with
      | [] => [[x]]
      | y :: ys => (x :: y) :: ys

def charsToNat? (cs : List Char) : Option Nat :=
  if cs.isEmpty then none
  else cs.foldl (fun acc c =>
    acc.bind (fun n => if c.isDigit then some (n * 10 + (c.toNat - 48)) else none)) (some 0)

def isLeapYear (y : Nat) : Bool := (y % 4 = 0 && !(y % 100 = 0 : Bool)) || (y % 400 = 0)

def daysInMonth (y m : Nat) : Nat :=
  if m = 2 then (if isLeapYear y then 29 else 28)
  else if m = 4 ∨ m = 6 ∨ m = 9 ∨ m = 11 then 30
  else 31

/-- `datetime.strptime(s, "%Y-%m-%d")`, `none` on malformed input. -/
def parseDate (s : String) : Option (Nat × Nat × Nat) :=
  match (splitOnChar '-' s.toList).map charsToNat? with
  | [some y, some m, some d] =>
    if 1 ≤ y ∧ y ≤ 9999 ∧ 1 ≤ m ∧ m ≤ 12 ∧ 1 ≤ d ∧ d ≤ daysInMonth y m then some (y, m, d)
    else none
  | _ => none

/-! ## `cache_manager.py` -/

/-- The business-day enumeration of `fill_missing_price_data`
(cache_manager.py lines 90-97): every day from start to end inclusive whose
weekday is 0-4, formatted `%Y-%m-%d` (holidays deliberately ignored by the
source). -/
def businessDays (start_date end_date : String) : List String :=
  match parseDate start_date, parseDate end_date with
  | some (y1, m1, d1), some (y2, m2, d2) =>
    let z1 := daysFromCivil y1 m1 d1
    let z2 := daysFromCivil y2 m2 d2
    (((List.range (z2 + 1 - z1)).map (fun i => z1 + i)).filter
      (fun z => pyWeekday z < 5)).map (fun z => formatDate (civilFromDays z))
  | _, _ => []

/-- `CacheManager.fill_missing_price_data` (cache_manager.py lines 67-109).
The two collaborator calls are parameters: `existing` is what
`self.cache.get_prices(ticker, start, end)` returned and `fetched` what
`check_and_fill_data('prices', ...)` (the external re-fetch of the whole
range, tools/api.py) returns.  With no existing data the whole range is
fetched with an empty backfill list; otherwise the expected business days
are diffed against the dates present and, on any gap, the re-fetched set is
returned together with the missing dates. -/
def fill_missing_price_data (existing fetched : List PriceItem)
    (start_date end_date : String) : Except String (List PriceItem × List String) :=
  if existing.isEmpty then .ok (fetched, [])
  else
    match parseDate start_date, parseDate end_date with
    | some _, some _ =>
      let existing_dates := existing.map (fun it => splitDateT it.time)
      let all_dates := businessDays start_date end_date
      let missing_dates := all_dates.filter (fun d => !(existing_dates.contains d))
      if missing_dates.isEmpty then .ok (existing, [])
      else .ok (fetched, missing_dates)
    | _, _ => .error "ValueError: time data does not match format %Y-%m-%d"

/-! ## Populated-field preservation for news rows -/

/-- Every already-populated (truthy) field of `r` keeps its value in `r'`:
the guarantee the news fill rule gives to enrichment passes. -/
def newsPopulatedPreserved (r r' : NewsRow) : Prop :=
  (∀ s, r.summary = some s → s ≠ "" → r'.summary = some s) ∧
  (∀ l, r.categories = some l → l ≠ [] → r'.categories = some l) ∧
  (∀ l, r.entities = some l → l ≠ [] → r'.entities = some l) ∧
  (∀ t, r.title = some t → r'.title = some t) ∧
  (∀ u, r.url = some u → r'.url = some u) ∧
  (∀ a, r.author = some a → r'.author = some a) ∧
  (∀ s, r.source = some s → r'.source = some s) ∧
  (∀ s, r.sentiment = some s → r'.sentiment = some s)

/-! ## Concrete fixtures used by the witnesses and counterexamples -/

/-- A price dict with a given timestamp and open price; the other value
columns are absent. -/
def px (t : String) (o : Int) : PriceItem :=
  { ticker := some "AAPL", time := t, open_ := some o, close := none,
    high := none, low := none, volume := none }

/-- A stored news row: enriched except for the summary and author. -/
def storedNews : NewsRow :=
  { ticker := "AAPL", date := "2024-05-01", title := some "Apple beats estimates",
    summary := none, author := none, source := some "wire",
    url := some "https://news.example/apple", sentiment := some "positive",
    categories := some ["earnings"], entities := some ["Apple"] }

/-- An incoming enhancement-pass dict for the same article (same natural
key), carrying different field values. -/
def incomingNews : NewsItem :=
  { date := "2024-05-01", title := "Apple beats estimates",
    url := some "https://news.example/apple",
    summary := some "Strong quarter", author := some "Jane Doe", source := none,
    sentiment := none, categories := none, entities := none,
    related_tickers := some ["AAPL", "MSFT"],
    ticker_sentiments := some [("AAPL", "positive")] }

/-- A complete re-fetch of the five business days 2024-01-01..05, standing
for the external `check_and_fill_data` result over that range. -/
def fetchedJan : List PriceItem :=
  [px "2024-01-01T00:00:00" 1, px "2024-01-02T00:00:00" 2, px "2024-01-03T00:00:00" 3,
   px "2024-01-04T00:00:00" 4, px "2024-01-05T00:00:00" 5]

/-- A financial-metric dict used as a concrete write batch. -/
def sampleMetric : FMItem :=
  { ticker := some "AAPL", report_period := "2024-03-31", period := "ttm",
    currency := some "USD", market_cap := some 3000, pe_ratio := some 30,
    roe := some 1 }

/-- A line-item dict used as a concrete write batch. -/
def sampleLineItem : LIItem :=
  { ticker := some "AAPL", report_period := "2024-03-31", period := "ttm",
    currency := some "USD", extra := [("revenue", 5)] }

/-- An insider-trade dict (falsy `name`, so the loop's broken
`db_models.InsiderTrade.name` lookup is skipped). -/
def sampleTrade : ITItem :=
  { filing_date := "2024-02-01", name := none, transaction_date := some "2024-01-30",
    insider_name := some "A. Smith", shares := some 100 }

/-- The same natural key as `sampleTrade` with a different share count. -/
def sampleTradeIncoming : ITItem :=
  { filing_date := "2024-02-01", name := none, transaction_date := some "2024-01-30",
    insider_name := some "A. Smith", shares := some 999 }

/-! # Theorems -/

/-! ## Order properties of the key comparison -/

theorem charListLe_total : ∀ l1 l2 : List Char, charListLe l1 l2 = true ∨ charListLe l2 l1 = true
  | [], _ => Or.inl rfl
  | _ :: _, [] => Or.inr rfl
  | c1 :: t1, c2 :: t2 => by
    rcases Nat.lt_trichotomy c1.toNat c2.toNat with h | h | h
    · exact Or.inl (by simp [charListLe, h])
    · rcases charListLe_total t1 t2 with ht | ht
      · exact Or.inl (by simp [charListLe, h, ht])
      · exact Or.inr (by simp [charListLe, h, ht])
    · exact Or.inr (by simp [charListLe, h])

theorem charListLe_trans : ∀ l1 l2 l3 : List Char,
    charListLe l1 l2 = true → charListLe l2 l3 = true → charListLe l1 l3 = true
  | [], _, _, _, _ => rfl
  | _ :: _, [], _, h1, _ => by simp [charListLe] at h1
  | _ :: _, _ :: _, [], _, h2 => by simp [charListLe] at h2
  | c1 :: t1, c2 :: t2, c3 :: t3, h1, h2 => by
    rcases Nat.lt_trichotomy c1.toNat c2.toNat with h12 | h12 | h12
    · rcases Nat.lt_trichotomy c2.toNat c3.toNat with h23 | h23 | h23
      · simp [charListLe, Nat.lt_trans h12 h23]
      · simp [charListLe, h23 ▸ h12]
      · simp [charListLe, h23, Nat.lt_asymm h23] at h2
    · rcases Nat.lt_trichotomy c2.toNat c3.toNat with h23 | h23 | h23
      · simp [charListLe, h12 ▸ h23]
      · have h13 : c1.toNat = c3.toNat := h12.trans h23
        simp only [charListLe, h12, h23, h13, lt_irrefl, if_false] at h1 h2 ⊢
        exact charListLe_trans t1 t2 t3 h1 h2
      · simp [charListLe, h23, Nat.lt_asymm h23] at h2
    · simp [charListLe, h12, Nat.lt_asymm h12] at h1

theorem charListLe_antisymm : ∀ l1 l2 : List Char,
    charListLe l1 l2 = true → charListLe l2 l1 = true → l1 = l2
  | [], [], _, _ => rfl
  | [], _ :: _, _, h2 => by simp [charListLe] at h2
  | _ :: _, [], h1, _ => by simp [charListLe] at h1
  | c1 :: t1, c2 :: t2, h1, h2 => by
    rcases Nat.lt_trichotomy c1.toNat c2.toNat with h | h | h
    · simp [charListLe, h, Nat.lt_asymm h] at h2
    · have hc : c1 = c2 := Char.ext (UInt32.ext h)
      subst hc
      simp only [charListLe, lt_irrefl, if_false] at h1 h2
      exact congrArg (c1 :: ·) (charListLe_antisymm t1 t2 h1 h2)
    · simp [charListLe, h, Nat.lt_asymm h] at h1

theorem strLe_trans {s t u : String} (h1 : strLe s t = true) (h2 : strLe t u = true) :
    strLe s u = true :=
  charListLe_trans _ _ _ h1 h2

theorem strLe_total (s t : String) : strLe s t = true ∨ strLe t s = true :=
  charListLe_total _ _

theorem strLe_antisymm {s t : String} (h1 : strLe s t = true) (h2 : strLe t s = true) :
    s = t :=
  String.ext (charListLe_antisymm _ _ h1 h2)

/-! ## C2: cache keys are deterministic and order-independent -/

theorem sortKwargs_eq_of_perm {l1 l2 : List (String × Option String)}
    (hp : l1.Perm l2) (hnd : (l1.map Prod.fst).Nodup) : sortKwargs l1 = sortKwargs l2 := by
  haveI : IsTotal (String × Option String) (fun a b => strLe a.1 b.1 = true) :=
    ⟨fun a b => strLe_total _ _⟩
  haveI : IsTrans (String × Option String) (fun a b => strLe a.1 b.1 = true) :=
    ⟨fun _ _ _ => strLe_trans⟩
  have hperm : (sortKwargs l1).Perm (sortKwargs l2) :=
    (List.perm_insertionSort _ l1).trans (hp.trans (List.perm_insertionSort _ l2).symm)
  have hs1 : List.Sorted (fun a b => strLe a.1 b.1 = true) (sortKwargs l1) :=
    List.sorted_insertionSort _ l1
  have hs2 : List.Sorted (fun a b => strLe a.1 b.1 = true) (sortKwargs l2) :=
    List.sorted_insertionSort _ l2
  have hnd1 : ((sortKwargs l1).map Prod.fst).Nodup :=
    (((List.perm_insertionSort _ l1).map Prod.fst).nodup_iff).mpr hnd
  have hnd2 : ((sortKwargs l2).map Prod.fst).Nodup :=
    (hperm.map Prod.fst).nodup_iff.mp hnd1
  have strict : ∀ {l : List (String × Option String)},
      List.Sorted (fun a b => strLe a.1 b.1 = true) l → (l.map Prod.fst).Nodup →
      List.Sorted (fun a b : String × Option String => strLe a.1 b.1 = true ∧ a.1 ≠ b.1) l := by
    intro l hs hn
    exact hs.and (List.pairwise_map.mp hn)
  haveI : IsAntisymm (String × Option String)
      (fun a b : String × Option String => strLe a.1 b.1 = true ∧ a.1 ≠ b.1) :=
    ⟨fun a b h1 h2 => absurd (strLe_antisymm h1.1 h2.1) h1.2⟩
  exact List.eq_of_perm_of_sorted hperm (strict hs1 hnd1) (strict hs2 hnd2)

/-- Claim C2: `generate_cache_key` is deterministic and order-independent —
for a fixed dataset name and the same set of parameters (no duplicated
parameter names, as in a Python dict), any two supply orders produce the
identical key string; null-valued parameters are dropped by the key
builder. -/
theorem generate_cache_key_order_independent (dt : String)
    (l1 l2 : List (String × Option String)) (hp : l1.Perm l2)
    (hnd : (l1.map Prod.fst).Nodup) :
    generate_cache_key dt l1 = generate_cache_key dt l2 := by
  unfold generate_cache_key
  rw [sortKwargs_eq_of_perm hp hnd]

/-- Witness for C2 at the spec's example: the prices key for
`{ticker: "AAPL", start_date: "2024-01-01"}` is insensitive to parameter
order. -/
theorem generate_cache_key_order_independent_witness :
    generate_cache_key "prices" [("ticker", some "AAPL"), ("start_date", some "2024-01-01")]
      = generate_cache_key "prices"
        [("start_date", some "2024-01-01"), ("ticker", some "AAPL")] :=
  generate_cache_key_order_independent "prices"
    [("ticker", some "AAPL"), ("start_date", some "2024-01-01")]
    [("start_date", some "2024-01-01"), ("ticker", some "AAPL")]
    (List.Perm.swap _ _ _) (by decide)

/-! ## C4: effective cache mode -/

/-- Counterexample to claim C4: with configured preference `sqlite`
(DurableOnly), the durable store down and the fast cache up, the spec's
degradation order gives FastOnly (`redis`), but `get_cache_mode` skips the
fast-only rung and resolves to `memory`. -/
theorem get_cache_mode_counterexample :
    get_cache_mode "sqlite" false true = "memory" ∧
    specModeStr (specEffectiveMode .durableOnly false true) = "redis" ∧
    get_cache_mode "sqlite" false true ≠ specModeStr (specEffectiveMode .durableOnly false true) := by
  decide

/-- Claim C4 as amended: with preference `full` and both tiers down the
effective mode is `memory`, and for preference `full` the code follows the
spec's degradation order exactly; the effective mode is never stronger than
the configured preference; but a `sqlite` preference with the durable store
down degrades directly to `memory`, skipping the fast-only rung even when
the fast cache is up. -/
theorem get_cache_mode_amended (pref : String) (db redis : Bool)
    (hpref : pref ∈ ["full", "sqlite", "redis", "memory", "none"]) :
    modeStrength (get_cache_mode pref db redis) ≤ modeStrength pref ∧
    get_cache_mode "full" db redis = specModeStr (specEffectiveMode .fullM db redis) ∧
    get_cache_mode "full" false false = "memory" ∧
    (db = false → get_cache_mode "sqlite" db redis = "memory") := by
  fin_cases hpref <;> cases db <;> cases redis <;> decide

/-- Witness for C4 at preference `full` with the durable store down and the
fast cache up. -/
theorem get_cache_mode_amended_witness :
    modeStrength (get_cache_mode "full" false true) ≤ modeStrength "full" ∧
    get_cache_mode "full" false true = specModeStr (specEffectiveMode .fullM false true) ∧
    get_cache_mode "full" false false = "memory" ∧
    (false = false → get_cache_mode "sqlite" false true = "memory") :=
  get_cache_mode_amended "full" false true (by decide)

/-! ## C5: fallback-store merge -/

theorem merge_data_eq_append {α κ : Type} [DecidableEq κ]
    (existing new_data : List α) (key_field : α → κ) :
    _merge_data existing new_data key_field
      = existing ++ new_data.filter
          (fun item => !((existing.map key_field).contains (key_field item))) := by
  cases existing with
  | nil =>
    simp [_merge_data]
  | cons a t => rfl

/-- Claim C5: the fallback merge keeps every existing record (as the
unchanged prefix of the result), appends exactly the incoming records whose
natural key is not already present, produces nothing that was not one of
the two inputs, never lets an incoming record replace the existing record
with the same key, and on the spec's example
`{T1, T2} ∪ {T2 incoming, T3}` yields `[T1, T2 original, T3]`. -/
theorem merge_data_key_preserving {α κ : Type} [DecidableEq κ]
    (existing new_data : List α) (key_field : α → κ) :
    ((_merge_data existing new_data key_field).take existing.length = existing) ∧
    (∀ item ∈ new_data, key_field item ∉ existing.map key_field →
       item ∈ _merge_data existing new_data key_field) ∧
    (∀ x ∈ _merge_data existing new_data key_field, x ∈ existing ∨ x ∈ new_data) ∧
    (∀ k, (existing.find? (fun a => key_field a == k)).isSome →
       (_merge_data existing new_data key_field).find? (fun a => key_field a == k)
         = existing.find? (fun a => key_field a == k)) ∧
    (_merge_data [px "T1" 1, px "T2" 2] [px "T2" 99, px "T3" 3] (fun it => it.time)
       = [px "T1" 1, px "T2" 2, px "T3" 3]) := by
  refine ⟨?_, ?_, ?_, ?_, by decide⟩
  · rw [merge_data_eq_append, List.take_left]
  · intro item hi hk
    rw [merge_data_eq_append]
    refine List.mem_append_right _ (List.mem_filter.mpr ⟨hi, ?_⟩)
    simpa using hk
  · intro x hx
    rw [merge_data_eq_append] at hx
    rcases List.mem_append.mp hx with h | h
    · exact Or.inl h
    · exact Or.inr (List.mem_filter.mp h).1
  · intro k h
    rw [merge_data_eq_append, List.find?_append]
    obtain ⟨v, hv⟩ := Option.isSome_iff_exists.mp h
    rw [hv]
    rfl

/-- Witness for C5: on the spec's example, the incoming record with the
fresh key T3 is merged in, while the lookup for T2 still returns the
original record, not the incoming one. -/
theorem merge_data_key_preserving_witness :
    px "T3" 3 ∈ _merge_data [px "T1" 1, px "T2" 2] [px "T2" 99, px "T3" 3]
        (fun it => it.time) ∧
    (_merge_data [px "T1" 1, px "T2" 2] [px "T2" 99, px "T3" 3]
        (fun it => it.time)).find? (fun a => a.time == "T2") = some (px "T2" 2) := by
  constructor
  · exact (merge_data_key_preserving [px "T1" 1, px "T2" 2] [px "T2" 99, px "T3" 3]
      (fun it => it.time)).2.1 (px "T3" 3) (by decide) (by decide)
  · have h := (merge_data_key_preserving [px "T1" 1, px "T2" 2] [px "T2" 99, px "T3" 3]
      (fun it => it.time)).2.2.2.1 "T2" (by decide)
    rw [h]
    decide

/-! ## C1: first-write-wins -/

theorem setPricesLoop_fst (orig : List PriceRow) (ticker : String) :
    ∀ (data : List PriceItem) (work adds : List PriceRow),
      (setPricesLoop orig ticker false data work adds).1 = work := by
  intro data
  induction data with
  | nil => intro work adds; rfl
  | cons item rest ih =>
    intro work adds
    simp only [setPricesLoop]
    cases hf : orig.findIdx? (fun r => decide (r.ticker = ticker ∧ r.time = item.time)) with
    | some i => simpa using ih work adds
    | none => exact ih work _

/-- The durable leg of `set_prices` with `force_update=False` never touches
a row whose natural key already exists: a lookup by that key still returns
the original row. -/
theorem set_prices_db_first_write_wins (ticker : String) (data : List PriceItem)
    (orig : List PriceRow) (tk tm : String)
    (h : (orig.find? (fun r => decide (r.ticker = tk ∧ r.time = tm))).isSome) :
    (set_prices_db ticker data false orig).find?
        (fun r => decide (r.ticker = tk ∧ r.time = tm))
      = orig.find? (fun r => decide (r.ticker = tk ∧ r.time = tm)) := by
  unfold set_prices_db
  rw [setPricesLoop_fst orig ticker data orig [], List.find?_append]
  obtain ⟨v, hv⟩ := Option.isSome_iff_exists.mp h
  rw [hv]
  rfl

theorem setITLoop_fst (orig : List ITRow) (ticker : String) :
    ∀ (data : List ITItem) (work adds : List ITRow) (wa : List ITRow × List ITRow),
      setITLoop orig ticker false data work adds = some wa → wa.1 = work := by
  intro data
  induction data with
  | nil =>
    intro work adds wa h
    cases h
    rfl
  | cons item rest ih =>
    intro work adds wa h
    simp only [setITLoop] at h
    by_cases hn : truthyStr item.name = true
    · rw [if_pos hn] at h
      cases h
    · rw [if_neg hn] at h
      split at h
      · simp only [Bool.false_eq_true, if_false] at h
        exact ih work adds wa h
      · exact ih work _ wa h

/-- The durable leg of `set_insider_trades` with `force_update=False`
(whether the batch aborts on a truthy `name` or commits) never touches an
existing row: a lookup that succeeded before the call returns the same
row afterwards. -/
theorem set_insider_trades_first_write_wins
    (redis : Option (List (String × List ITItem))) (ticker : String)
    (data : List ITItem) (orig : List ITRow) (p : ITRow → Bool)
    (h : (orig.find? p).isSome) :
    ∃ t', (set_insider_trades redis (some orig) ticker data false).2.1 = some t' ∧
      t'.find? p = orig.find? p := by
  obtain ⟨v, hv⟩ := Option.isSome_iff_exists.mp h
  unfold set_insider_trades
  by_cases hd : data.isEmpty
  · rw [if_pos hd]
    exact ⟨orig, rfl, rfl⟩
  · rw [if_neg hd]
    dsimp only
    cases hloop : setITLoop orig ticker false data orig [] with
    | none =>
      cases redis with
      | none => exact ⟨orig, rfl, rfl⟩
      | some r => exact ⟨orig, rfl, rfl⟩
    | some wa =>
      have hw : wa.1 = orig := setITLoop_fst orig ticker data orig [] wa hloop
      have hfind : (wa.1 ++ wa.2).find? p = orig.find? p := by
        rw [hw, List.find?_append, hv]
        rfl
      cases redis with
      | none => exact ⟨wa.1 ++ wa.2, rfl, hfind⟩
      | some r => exact ⟨wa.1 ++ wa.2, rfl, hfind⟩

/-- A financial-metric write never modifies the durable table: the broken
`db_models.FinancialMetrics` lookup fails every non-empty batch before
anything is staged. -/
theorem set_financial_metrics_table_unchanged
    (redis : Option (List (String × List FMItem))) (table : List FMRow)
    (ticker : String) (data : List FMItem) (force_update : Bool) :
    (set_financial_metrics redis (some table) ticker data force_update).2.1 = some table := by
  unfold set_financial_metrics
  split
  · rfl
  · rfl

/-- A line-item write never modifies the durable table: the broken
`db_models.LineItem.period` lookup fails every non-empty batch before
anything is staged. -/
theorem set_line_items_table_unchanged
    (redis : Option (List (String × List LIItem))) (table : List LIRow)
    (ticker : String) (data : List LIItem) (force_update : Bool) :
    (set_line_items redis (some table) ticker data force_update).2.1 = some table := by
  unfold set_line_items
  split
  · rfl
  · rfl

theorem newsPopulatedPreserved_refl (r : NewsRow) : newsPopulatedPreserved r r :=
  ⟨fun _ hs _ => hs, fun _ hl _ => hl, fun _ hl _ => hl, fun _ ht => ht,
   fun _ hu => hu, fun _ ha => ha, fun _ hs => hs, fun _ hs => hs⟩

theorem newsPopulatedPreserved_trans {a b c : NewsRow}
    (h1 : newsPopulatedPreserved a b) (h2 : newsPopulatedPreserved b c) :
    newsPopulatedPreserved a c :=
  ⟨fun s hs hne => h2.1 s (h1.1 s hs hne) hne,
   fun l hl hne => h2.2.1 l (h1.2.1 l hl hne) hne,
   fun l hl hne => h2.2.2.1 l (h1.2.2.1 l hl hne) hne,
   fun t ht => h2.2.2.2.1 t (h1.2.2.2.1 t ht),
   fun u hu => h2.2.2.2.2.1 u (h1.2.2.2.2.1 u hu),
   fun a' ha => h2.2.2.2.2.2.1 a' (h1.2.2.2.2.2.1 a' ha),
   fun s hs => h2.2.2.2.2.2.2.1 s (h1.2.2.2.2.2.2.1 s hs),
   fun s hs => h2.2.2.2.2.2.2.2 s (h1.2.2.2.2.2.2.2 s hs)⟩

/-- The news fill rule never clobbers a populated (truthy) field. -/
theorem fillNewsRow_preserves (r : NewsRow) (item : NewsItem) :
    newsPopulatedPreserved r (fillNewsRow r item) := by
  refine ⟨?_, ?_, ?_, ?_, ?_, ?_, ?_, ?_⟩
  · intro s hs hne; simp [fillNewsRow, hs, hne]
  · intro l hl hne; simp [fillNewsRow, hl, hne]
  · intro l hl hne; simp [fillNewsRow, hl, hne]
  · intro t ht; simp [fillNewsRow, ht]
  · intro u hu; simp [fillNewsRow, hu]
  · intro a ha; simp [fillNewsRow, ha]
  · intro s hs; simp [fillNewsRow, hs]
  · intro s hs; simp [fillNewsRow, hs]

theorem setNewsLoop_preserves (orig : List NewsRow) (ticker : String) :
    ∀ (data : List NewsItem) (work adds : List NewsRow),
      work.length = orig.length →
      (∀ (i : Nat) (r w : NewsRow), orig[i]? = some r → work[i]? = some w →
        newsPopulatedPreserved r w) →
      ((setNewsLoop orig ticker false data work adds).1.length = orig.length ∧
       ∀ (i : Nat) (r w : NewsRow), orig[i]? = some r →
         (setNewsLoop orig ticker false data work adds).1[i]? = some w →
         newsPopulatedPreserved r w) := by
  intro data
  induction data with
  | nil => intro work adds hlen hinv; exact ⟨hlen, hinv⟩
  | cons item rest ih =>
    intro work adds hlen hinv
    simp only [setNewsLoop]
    cases hf : orig.findIdx? (fun r => decide (r.ticker = ticker ∧ r.date = item.date)
        && (if truthyStr item.url then decide (r.url = item.url)
            else decide (r.title = some item.title))) with
    | none => exact ih work _ hlen hinv
    | some j =>
      have hjorig : j < orig.length := (List.findIdx?_eq_some_iff_findIdx_eq.mp hf).1
      have hjlt : j < work.length := by omega
      simp only [Bool.false_eq_true, if_false]
      apply ih _ adds
      · rw [List.length_set]; exact hlen
      · intro i r w h1 h2
        by_cases hij : j = i
        · subst hij
          rw [List.getElem?_set_self hjlt] at h2
          obtain ⟨w0, hw0⟩ : ∃ w0, work[j]? = some w0 :=
            ⟨work[j], (List.getElem?_eq_some).mpr ⟨hjlt, rfl⟩⟩
          have hgetD : work.getD j (mkNewsRow ticker item) = w0 := by
            rw [List.getD_eq_getElem?_getD, hw0]; rfl
          rw [hgetD] at h2
          cases h2
          exact newsPopulatedPreserved_trans (hinv j r w0 h1 hw0)
            (fillNewsRow_preserves w0 item)
        · rw [List.getElem?_set_ne hij] at h2
          exact hinv i r w h1 h2

/-- Counterexample to claim C1: a news write with `force_update=False`
against an existing record with the same natural key and different field
values does change the stored record — the empty `summary` is overwritten
with the incoming value, so a subsequent read returns the incoming value,
not the original one. -/
theorem set_company_news_overwrites_empty_counterexample :
    storedNews.summary = none ∧
    incomingNews.summary = some "Strong quarter" ∧
    (set_company_news_db "AAPL" [incomingNews] false [storedNews]).map NewsRow.summary
      = [some "Strong quarter"] := by
  decide

/-- Claim C1 as amended: with the overwrite flag false, a durable price or
insider-trade write never changes the row stored under an already-present
natural key (a durable lookup by that key still returns the original row
with its original values); financial-metric and line-item writes leave the
durable table entirely unchanged (they fail on a module-attribute error
before writing anything); and a durable news write preserves every
already-populated field of the matched stored row, but — unlike the other
entity types — fills the article's null/empty fields from the incoming
record. -/
theorem set_first_write_wins_amended (pticker : String) (pdata : List PriceItem)
    (porig : List PriceRow) (tk tm : String)
    (hp : (porig.find? (fun r => decide (r.ticker = tk ∧ r.time = tm))).isSome)
    (fredis : Option (List (String × List FMItem))) (ftable : List FMRow)
    (fticker : String) (fdata : List FMItem)
    (lredis : Option (List (String × List LIItem))) (ltable : List LIRow)
    (lticker : String) (ldata : List LIItem)
    (iredis : Option (List (String × List ITItem))) (iticker : String)
    (idata : List ITItem) (iorig : List ITRow) (ip : ITRow → Bool)
    (hi : (iorig.find? ip).isSome)
    (nticker : String) (ndata : List NewsItem) (norig : List NewsRow)
    (i : Nat) (r : NewsRow) (hn : norig[i]? = some r) :
    ((set_prices_db pticker pdata false porig).find?
        (fun row => decide (row.ticker = tk ∧ row.time = tm))
      = porig.find? (fun row => decide (row.ticker = tk ∧ row.time = tm))) ∧
    ((set_financial_metrics fredis (some ftable) fticker fdata false).2.1 = some ftable) ∧
    ((set_line_items lredis (some ltable) lticker ldata false).2.1 = some ltable) ∧
    (∃ t', (set_insider_trades iredis (some iorig) iticker idata false).2.1 = some t' ∧
       t'.find? ip = iorig.find? ip) ∧
    (∃ w, (set_company_news_db nticker ndata false norig)[i]? = some w ∧
       newsPopulatedPreserved r w) := by
  refine ⟨set_prices_db_first_write_wins pticker pdata porig tk tm hp,
    set_financial_metrics_table_unchanged fredis ftable fticker fdata false,
    set_line_items_table_unchanged lredis ltable lticker ldata false,
    set_insider_trades_first_write_wins iredis iticker idata iorig ip hi, ?_⟩
  have hloop := setNewsLoop_preserves norig nticker ndata norig []
    rfl (fun i' r' w' h1 h2 => by
      rw [h1] at h2; cases h2; exact newsPopulatedPreserved_refl r')
  have hilt : i < norig.length := by
    rcases (List.getElem?_eq_some).mp hn with ⟨h, _⟩; exact h
  have hiw : i < (setNewsLoop norig nticker false ndata norig []).1.length := by
    rw [hloop.1]; exact hilt
  obtain ⟨w, hw⟩ : ∃ w, (setNewsLoop norig nticker false ndata norig []).1[i]? = some w :=
    ⟨_, (List.getElem?_eq_some).mpr ⟨hiw, rfl⟩⟩
  refine ⟨w, ?_, hloop.2 i r w hn hw⟩
  unfold set_company_news_db
  rw [List.getElem?_append_left hiw]
  exact hw

/-- Witness for C1 (amended): a concrete price row keyed
("AAPL","2024-01-01") survives a non-overwrite write of a different open
price; metric and line-item tables survive non-empty non-overwrite writes
unchanged; an insider-trade row keyed ("AAPL","2024-02-01") survives a
non-overwrite write of a different share count; and the stored news row's
populated fields survive a non-overwrite enhancement write. -/
theorem set_first_write_wins_amended_witness :
    ((set_prices_db "AAPL" [px "2024-01-01" 99] false
        [mkPriceRow "AAPL" (px "2024-01-01" 1)]).find?
        (fun row => decide (row.ticker = "AAPL" ∧ row.time = "2024-01-01"))
      = (([mkPriceRow "AAPL" (px "2024-01-01" 1)] : List PriceRow).find?
        (fun row => decide (row.ticker = "AAPL" ∧ row.time = "2024-01-01")))) ∧
    ((set_financial_metrics none (some []) "AAPL" [sampleMetric] false).2.1
      = some ([] : List FMRow)) ∧
    ((set_line_items none (some []) "AAPL" [sampleLineItem] false).2.1
      = some ([] : List LIRow)) ∧
    (∃ t', (set_insider_trades none (some [mkITRow "AAPL" sampleTrade]) "AAPL"
        [sampleTradeIncoming] false).2.1 = some t' ∧
       t'.find? (fun row => decide (row.ticker = "AAPL" ∧ row.filing_date = "2024-02-01"))
         = ([mkITRow "AAPL" sampleTrade] : List ITRow).find?
             (fun row => decide (row.ticker = "AAPL" ∧ row.filing_date = "2024-02-01"))) ∧
    (∃ w, (set_company_news_db "AAPL" [incomingNews] false [storedNews])[0]? = some w ∧
       newsPopulatedPreserved storedNews w) :=
  set_first_write_wins_amended "AAPL" [px "2024-01-01" 99]
    [mkPriceRow "AAPL" (px "2024-01-01" 1)] "AAPL" "2024-01-01" (by decide)
    none [] "AAPL" [sampleMetric]
    none [] "AAPL" [sampleLineItem]
    none "AAPL" [sampleTradeIncoming] [mkITRow "AAPL" sampleTrade]
    (fun row => decide (row.ticker = "AAPL" ∧ row.filing_date = "2024-02-01")) (by decide)
    "AAPL" [incomingNews] [storedNews] 0 storedNews (by decide)

/-! ## C3: write-batch atomicity -/

/-- Claim C3 (code bug): in sqlite-only mode (fast cache unavailable) a
`set_company_news` call commits its batch, then raises `AttributeError` in
the unguarded post-commit `self.redis.scan_iter` (cache.py line 846) —
inside the same `try` block — catches it, calls `db.rollback()` (a no-op
after commit) and returns `False`: an exception raised during the call
leaves the whole batch visible in the durable store while the durable leg
reports failure, so the store is not restored as the claim requires. -/
theorem set_company_news_commit_visible_after_exception :
    set_company_news none (some []) "AAPL" [incomingNews] false
      = (none, some [mkNewsRow "AAPL" incomingNews], Except.ok false) ∧
    [mkNewsRow "AAPL" incomingNews] ≠ ([] : List NewsRow) :=
  ⟨rfl, by decide⟩

/-! ## C6: the news fill rule -/

/-- Counterexample to claim C6: `author` is not among the five listed
fields, yet a non-overwrite news write fills it from the incoming record
when the stored value is null — the set of filled fields is not
"exactly the null/empty fields among summary, categories, entities,
related_tickers, ticker_sentiments". -/
theorem fill_beyond_listed_fields_counterexample :
    storedNews.author = none ∧
    (set_company_news_db "AAPL" [incomingNews] false [storedNews]).map NewsRow.author
      = [some "Jane Doe"] := by
  decide

/-- Claim C6 as amended: on a non-overwrite news write against an existing
record, every already-populated field keeps its prior value; the fields
filled from the incoming record are exactly the null-valued model columns
(every model column, e.g. `author`, not only the listed five) plus
`summary`, `categories` and `entities` also when empty-but-non-null;
`related_tickers` and `ticker_sentiments` are not model columns and are
never stored — the result does not depend on them. -/
theorem fillNewsRow_amended (r : NewsRow) (item : NewsItem) :
    newsPopulatedPreserved r (fillNewsRow r item) ∧
    (r.summary = none → (fillNewsRow r item).summary = item.summary) ∧
    (∀ s, r.summary = some s → s = "" → truthyStr item.summary = true →
       (fillNewsRow r item).summary = item.summary) ∧
    (r.categories = none → (fillNewsRow r item).categories = item.categories) ∧
    (∀ l, r.categories = some l → l = [] → truthyList item.categories = true →
       (fillNewsRow r item).categories = item.categories) ∧
    (r.entities = none → (fillNewsRow r item).entities = item.entities) ∧
    (∀ l, r.entities = some l → l = [] → truthyList item.entities = true →
       (fillNewsRow r item).entities = item.entities) ∧
    (r.author = none → (fillNewsRow r item).author = item.author) ∧
    (r.url = none → (fillNewsRow r item).url = item.url) ∧
    (r.source = none → (fillNewsRow r item).source = item.source) ∧
    (r.sentiment = none → (fillNewsRow r item).sentiment = item.sentiment) ∧
    (r.title = none → (fillNewsRow r item).title = some item.title) ∧
    (∀ rt ts, fillNewsRow r { item with related_tickers := rt, ticker_sentiments := ts }
        = fillNewsRow r item) := by
  refine ⟨fillNewsRow_preserves r item, ?_, ?_, ?_, ?_, ?_, ?_, ?_, ?_, ?_, ?_, ?_, ?_⟩
  · intro h; simp [fillNewsRow, h]
  · intro s hs he ht; subst he; simp [fillNewsRow, hs, ht]
  · intro h; simp [fillNewsRow, h]
  · intro l hl he ht; subst he; simp [fillNewsRow, hl, ht]
  · intro h; simp [fillNewsRow, h]
  · intro l hl he ht; subst he; simp [fillNewsRow, hl, ht]
  · intro h; simp [fillNewsRow, h]
  · intro h; simp [fillNewsRow, h]
  · intro h; simp [fillNewsRow, h]
  · intro h; simp [fillNewsRow, h]
  · intro h; simp [fillNewsRow, h]
  · intro rt ts; rfl

/-- Witness for C6 (amended) at the concrete fixtures: the null `author`
and `summary` are filled from the incoming record, and dropping the
incoming `related_tickers`/`ticker_sentiments` leaves the result
unchanged. -/
theorem fillNewsRow_amended_witness :
    (fillNewsRow storedNews incomingNews).author = incomingNews.author ∧
    (fillNewsRow storedNews incomingNews).summary = incomingNews.summary ∧
    fillNewsRow storedNews
        { incomingNews with related_tickers := none, ticker_sentiments := none }
      = fillNewsRow storedNews incomingNews := by
  obtain ⟨_, hsum, _, _, _, _, _, hauth, _, _, _, _, hinv⟩ :=
    fillNewsRow_amended storedNews incomingNews
  exact ⟨hauth rfl, hsum rfl, hinv none none⟩

/-! ## C7: empty results on the read path -/

/-- Claim C7 (code bug): with every tier empty or disabled, `get_prices`
returns the empty list, but `get_line_items` raises `AttributeError` on a
fast-cache miss whatever the durable store's state: from its unguarded
`db.query` when the session is absent, and from the nonexistent
`db_models.LineItem.period` column when the session is live — "no data" is
not an error-free terminal outcome for every entity type. -/
theorem get_line_items_always_raises :
    get_prices none none [] "memory" "AAPL" none none = Except.ok [] ∧
    get_line_items none none "AAPL" none "ttm"
      = Except.error "AttributeError: 'NoneType' object has no attribute 'query'" ∧
    get_line_items none (some []) "AAPL" none "ttm"
      = Except.error "AttributeError: type object 'LineItem' has no attribute 'period'" :=
  ⟨rfl, rfl, rfl⟩

/-! ## C8: natural-key uniqueness -/

/-- Claim C8 (code bug): a batch that repeats a natural key internally
breaks per-tier key uniqueness — the fallback merge checks incoming keys
only against the pre-existing keys, so both duplicates are appended, and
the durable upsert loop (autoflush off, lookups run against the table as of
call entry, no declared unique constraint) inserts both. -/
theorem duplicate_batch_breaks_uniqueness :
    ¬ ((_merge_data ([] : List PriceItem) [px "2024-01-02" 1, px "2024-01-02" 2]
         (fun it => it.time)).map (fun it => it.time)).Nodup ∧
    ¬ ((set_prices_db "AAPL" [px "2024-01-02" 1, px "2024-01-02" 2] false []).map
         (fun r => (r.ticker, r.time))).Nodup := by
  decide

/-! ## C9: gap detection and backfill -/

/-- Counterexample to claim C9: over 2024-01-01..2024-01-05 (Monday to
Friday, five business days) with only 2024-01-01 and 2024-01-03 present,
the missing-date list is `["2024-01-02", "2024-01-04", "2024-01-05"]`, not
the claimed `{"2024-01-02", "2024-01-04"}`. -/
theorem fill_missing_price_data_counterexample :
    fill_missing_price_data [px "2024-01-01T00:00:00" 1, px "2024-01-03T00:00:00" 3]
        fetchedJan "2024-01-01" "2024-01-05"
      = Except.ok (fetchedJan, ["2024-01-02", "2024-01-04", "2024-01-05"]) ∧
    (["2024-01-02", "2024-01-04", "2024-01-05"] : List String)
      ≠ ["2024-01-02", "2024-01-04"] := by
  constructor
  · rfl
  · decide

/-- Claim C9 as amended: `fill_missing_price_data` diffs the expected
business days (weekends excluded) against the dates present: every
reported missing date is an expected business day absent from the cached
records and every absent business day is reported; with no missing dates
the existing records are returned with an empty backfill list (idempotent
when complete); on any gap the whole-range re-fetch is returned together
with the missing dates — and on the spec's example the missing dates are
exactly `{2024-01-02, 2024-01-04, 2024-01-05}`. -/
theorem fill_missing_price_data_amended (existing fetched : List PriceItem)
    (start_date end_date : String)
    (hp : (parseDate start_date).isSome) (hq : (parseDate end_date).isSome)
    (recs : List PriceItem) (missing : List String)
    (h : fill_missing_price_data existing fetched start_date end_date
        = Except.ok (recs, missing)) :
    (∀ d ∈ missing, d ∈ businessDays start_date end_date ∧
       d ∉ existing.map (fun it => splitDateT it.time)) ∧
    (existing ≠ [] → ∀ d ∈ businessDays start_date end_date,
       d ∉ existing.map (fun it => splitDateT it.time) → d ∈ missing) ∧
    (existing ≠ [] → missing = [] → recs = existing) ∧
    (missing ≠ [] → recs = fetched) ∧
    (fill_missing_price_data [px "2024-01-01T00:00:00" 1, px "2024-01-03T00:00:00" 3]
        fetchedJan "2024-01-01" "2024-01-05"
      = Except.ok (fetchedJan, ["2024-01-02", "2024-01-04", "2024-01-05"])) := by
  obtain ⟨p1, hp1⟩ := Option.isSome_iff_exists.mp hp
  obtain ⟨p2, hp2⟩ := Option.isSome_iff_exists.mp hq
  unfold fill_missing_price_data at h
  by_cases hemp : existing.isEmpty
  · rw [if_pos hemp] at h
    have hex : existing = [] := List.isEmpty_iff.mp hemp
    cases h
    refine ⟨?_, ?_, ?_, ?_, by rfl⟩
    · intro d hd; cases hd
    · intro hne; exact absurd hex hne
    · intro hne; exact absurd hex hne
    · intro hne; exact absurd rfl hne
  · rw [if_neg hemp, hp1, hp2] at h
    set md := (businessDays start_date end_date).filter
      (fun d => !((existing.map (fun it => splitDateT it.time)).contains d)) with hmd
    by_cases hm : md.isEmpty
    · rw [if_pos hm] at h
      cases h
      refine ⟨?_, ?_, ?_, ?_, by rfl⟩
      · intro d hd; cases hd
      · intro _ d hbd hnd
        exfalso
        have hdm : d ∈ md := by
          rw [hmd]
          refine List.mem_filter.mpr ⟨hbd, ?_⟩
          simpa using hnd
        rw [List.isEmpty_iff.mp hm] at hdm
        cases hdm
      · intro _ _; rfl
      · intro hne; exact absurd rfl hne
    · rw [if_neg hm] at h
      cases h
      refine ⟨?_, ?_, ?_, ?_, by rfl⟩
      · intro d hd
        have hmem := List.mem_filter.mp hd
        refine ⟨hmem.1, ?_⟩
        simpa using hmem.2
      · intro _ d hbd hnd
        refine List.mem_filter.mpr ⟨hbd, ?_⟩
        simpa using hnd
      · intro _ hmiss
        refine absurd ?_ hm
        rw [hmd, hmiss]
        rfl
      · intro _; rfl

/-- Witness for C9 (amended) at the spec's example: 2024-01-05 is reported
missing, is an expected business day of the range, and is absent from the
cached dates. -/
theorem fill_missing_price_data_amended_witness :
    "2024-01-05" ∈ businessDays "2024-01-01" "2024-01-05" ∧
    "2024-01-05" ∉ ([px "2024-01-01T00:00:00" 1, px "2024-01-03T00:00:00" 3].map
        (fun it => splitDateT it.time)) :=
  (fill_missing_price_data_amended
      [px "2024-01-01T00:00:00" 1, px "2024-01-03T00:00:00" 3] fetchedJan
      "2024-01-01" "2024-01-05" (by decide) (by decide) fetchedJan
      ["2024-01-02", "2024-01-04", "2024-01-05"] (by rfl)).1
    "2024-01-05" (by decide)

/-! ## C10: empty writes -/

/-- Claim C10: every entity type's set operation, called with an empty
record list, returns False and leaves every tier unchanged, whatever the
tier availability. -/
theorem set_empty_batch_returns_false
    (redisP : Option (List (String × List PriceItem))) (dbP : Option (List PriceRow))
    (memP : List (String × List PriceItem))
    (redisF : Option (List (String × List FMItem))) (dbF : Option (List FMRow))
    (redisL : Option (List (String × List LIItem))) (dbL : Option (List LIRow))
    (redisI : Option (List (String × List ITItem))) (dbI : Option (List ITRow))
    (redisN : Option (List (String × List NewsItem))) (dbN : Option (List NewsRow))
    (ticker : String) (force_update : Bool) :
    set_prices redisP dbP memP ticker [] force_update = (redisP, dbP, memP, false) ∧
    set_financial_metrics redisF dbF ticker [] force_update = (redisF, dbF, Except.ok false) ∧
    set_line_items redisL dbL ticker [] force_update = (redisL, dbL, Except.ok false) ∧
    set_insider_trades redisI dbI ticker [] force_update = (redisI, dbI, Except.ok false) ∧
    set_company_news redisN dbN ticker [] force_update = (redisN, dbN, Except.ok false) :=
  ⟨rfl, rfl, rfl, rfl, rfl⟩

end AIHedgeFund
